import Mathlib

/-
Verification development for the TellMeTruth media pipeline.

Shallow embedding of the pipeline's core operations:
  * the SQLite download ledger (src/utils/common.py, src/email_video_runner.py,
    src/yt_tiktok_downloader.py, src/instagram_downloader.py) — the table
    `downloads(id, url UNIQUE, title, downloaded_at)` is modelled as a list of
    rows, `INSERT OR IGNORE` as an insert-if-absent state transformer;
  * the file-stability detector (src/process_and_package_videos.py);
  * the yt-dlp retry loop and ledger gate (src/email_video_runner.py,
    src/yt_tiktok_downloader.py);
  * the hand-off list producer/consumer (src/email_video_runner.py,
    src/transcribe_downloaded_videos.py);
  * the unique-filepath allocator (src/instagram_downloader.py);
  * the per-item stage pipeline and its worker pool
    (src/process_and_package_videos.py).

External effects (network fetches, subprocess runs, file writes, log lines,
sleeps) are recorded as explicit event traces; fallible external calls are
oracles of type `Except String _` supplied as parameters, mirroring Python
exceptions.  SQLite serialises writers, so a set of concurrent ledger calls
is modelled as an arbitrary sequential interleaving of atomic operations.
-/

set_option maxHeartbeats 1000000

/-! ### Ledger (downloads table) -/

/-- Row of the `downloads` table: `url` is declared `TEXT UNIQUE NOT NULL`,
`title` is `TEXT NOT NULL`; the `id` and `downloaded_at` bookkeeping columns
play no role in any claim and are omitted. -/
structure LedgerRow where
  url : String
  title : String
deriving DecidableEq, Repr

/-- Embedding of `is_url_downloaded` (src/utils/common.py):
`SELECT 1 FROM downloads WHERE url = ?` followed by a fetchone test. -/
def is_url_downloaded (db : List LedgerRow) (url : String) : Bool :=
  db.any (fun r => r.url == url)

/-- Embedding of `record_successful_download` (src/utils/common.py):
`INSERT OR IGNORE INTO downloads (url, title) VALUES (?, ?)` against the
UNIQUE `url` column.  With `OR IGNORE` the storage layer resolves a
uniqueness conflict by skipping the insert: no `sqlite3.Error` is raised on
the duplicate path, so the function is total and the conflict branch simply
returns the database unchanged. -/
def record_successful_download (db : List LedgerRow) (url title : String) :
    List LedgerRow :=
  if is_url_downloaded db url then db else db ++ [⟨url, title⟩]

/-- Number of ledger rows whose key is `url`. -/
def countUrl (db : List LedgerRow) (url : String) : Nat :=
  (db.filter (fun r => r.url == url)).length

theorem is_url_downloaded_iff (db : List LedgerRow) (url : String) :
    is_url_downloaded db url = true ↔ ∃ r ∈ db, r.url = url := by
  simp [is_url_downloaded, List.any_eq_true, beq_iff_eq]

theorem countUrl_eq_zero_iff (db : List LedgerRow) (url : String) :
    countUrl db url = 0 ↔ is_url_downloaded db url = false := by
  rw [countUrl, List.length_eq_zero, List.filter_eq_nil_iff]
  simp [is_url_downloaded, List.any_eq_false]

theorem countUrl_record (db : List LedgerRow) (url title : String) :
    countUrl (record_successful_download db url title) url =
      if is_url_downloaded db url then countUrl db url else countUrl db url + 1 := by
  unfold record_successful_download
  split
  · rfl
  · simp [countUrl, List.filter_append]

theorem is_url_downloaded_record_self (db : List LedgerRow) (url title : String) :
    is_url_downloaded (record_successful_download db url title) url = true := by
  unfold record_successful_download
  cases h : is_url_downloaded db url
  · simp only [h, if_false, is_url_downloaded, List.any_append, List.any_cons,
      List.any_nil, beq_self_eq_true]
    simp
  · simp [h]

theorem countUrl_record_of_present (db : List LedgerRow) (url title : String)
    (h : is_url_downloaded db url = true) :
    record_successful_download db url title = db := by
  simp [record_successful_download, h]

/-- Folding repeated `record_successful_download` calls with the same url
keeps the row count at one once it is one. -/
theorem countUrl_fold_record (url : String) (titles : List String)
    (db : List LedgerRow) (h : countUrl db url = 1) :
    countUrl
      (titles.foldl (fun d t => record_successful_download d url t) db) url
      = 1 := by
  induction titles generalizing db with
  | nil => exact h
  | cons t ts ih =>
    have hdl : is_url_downloaded db url = true := by
      cases hc : is_url_downloaded db url
      · rw [← countUrl_eq_zero_iff] at hc; omega
      · rfl
    have hrec : countUrl (record_successful_download db url t) url = 1 := by
      rw [countUrl_record, if_pos hdl]; exact h
    simpa using ih _ hrec

/-- Claim C1: on a database satisfying the storage-layer uniqueness
constraint (at most one row per url), any nonempty sequence of
`record_successful_download` calls with the same url — an arbitrary
serialisation of sequential or concurrent calls, with arbitrary titles —
leaves exactly one durable row for that url; and a call whose row already
exists is swallowed as a no-op (the function returns normally with the
database unchanged, no error is surfaced). -/
theorem c1_record_successful_download_idempotent
    (db : List LedgerRow) (url : String) (titles : List String)
    (huniq : countUrl db url ≤ 1) (hne : titles ≠ []) :
    countUrl
      (titles.foldl (fun d t => record_successful_download d url t) db) url
      = 1 ∧
    (∀ t, is_url_downloaded db url = true →
      record_successful_download db url t = db) := by
  refine ⟨?_, fun t h => countUrl_record_of_present db url t h⟩
  cases titles with
  | nil => exact absurd rfl hne
  | cons t ts =>
    have hone : countUrl (record_successful_download db url t) url = 1 := by
      rw [countUrl_record]
      cases hdl : is_url_downloaded db url
      · rw [← countUrl_eq_zero_iff] at hdl
        simp [hdl]
      · simp only [if_pos]
        have : countUrl db url ≠ 0 := by
          intro h0; rw [countUrl_eq_zero_iff] at h0; rw [hdl] at h0; cases h0
        omega
    simpa using countUrl_fold_record url ts _ hone

theorem c1_record_successful_download_idempotent_witness :
    countUrl ([] : List LedgerRow) "https://example.com/v" ≤ 1 ∧
    (["Title A", "Title B"] : List String) ≠ [] ∧
    (countUrl
      ((["Title A", "Title B"] : List String).foldl
        (fun d t => record_successful_download d "https://example.com/v" t)
        ([] : List LedgerRow)) "https://example.com/v" = 1 ∧
     (∀ t, is_url_downloaded ([] : List LedgerRow) "https://example.com/v" = true →
        record_successful_download ([] : List LedgerRow) "https://example.com/v" t
          = [])) := by
  refine ⟨by decide, by decide, ?_⟩
  exact c1_record_successful_download_idempotent [] "https://example.com/v"
    ["Title A", "Title B"] (by decide) (by decide)

/-! ### Stability detector -/

/-- Embedding of `is_file_stable` (src/process_and_package_videos.py).  A
stat sample is `none` when `Path.stat()` raises (file deleted or
unreadable) and `some (size, mtime)` otherwise; modification times are
abstracted to naturals since only equality is compared.  The Python wraps
both samples and the interposed sleep in one `try`; any exception logs a
warning and yields False.  Result: `(stable, warned)` where `warned` marks
the exception branch. -/
def is_file_stable (stat0 stat1 : Option (Nat × Nat)) : Bool × Bool :=
  match stat0 with
  | none => (false, true)
  | some s0 =>
    match stat1 with
    | none => (false, true)
    | some s1 => (decide (s0.1 = s1.1) && decide (s0.2 = s1.2), false)

/-- Claim C4: the stability check returns true only if both the size and the
mtime are unchanged between the two samples, and when the file cannot be
stat'd at either sample it returns not-stable with a logged warning instead
of raising (the function is total; the exception branch is the
`(false, true)` result). -/
theorem c4_is_file_stable_conservative (stat0 stat1 : Option (Nat × Nat)) :
    ((is_file_stable stat0 stat1).1 = true ↔
      ∃ s0 s1, stat0 = some s0 ∧ stat1 = some s1 ∧ s0.1 = s1.1 ∧ s0.2 = s1.2) ∧
    (stat0 = none ∨ stat1 = none → is_file_stable stat0 stat1 = (false, true)) := by
  constructor
  · cases stat0 with
    | none => simp [is_file_stable]
    | some s0 =>
      cases stat1 with
      | none => simp [is_file_stable]
      | some s1 => simp [is_file_stable]
  · rintro (rfl | rfl)
    · rfl
    · cases stat0 <;> rfl

theorem c4_is_file_stable_conservative_witness :
    ((is_file_stable none (some (7, 3))).1 = true ↔
      ∃ s0 s1, (none : Option (Nat × Nat)) = some s0 ∧
        (some (7, 3) : Option (Nat × Nat)) = some s1 ∧
        s0.1 = s1.1 ∧ s0.2 = s1.2) ∧
    is_file_stable none (some (7, 3)) = (false, true) :=
  ⟨(c4_is_file_stable_conservative none (some (7, 3))).1,
   (c4_is_file_stable_conservative none (some (7, 3))).2 (Or.inl rfl)⟩

/-! ### Hand-off list consumer -/

/-- Embedding of `load_factcheck_dirs` (src/transcribe_downloaded_videos.py).
The hand-off file is `none` when `os.path.exists(list_path)` is false, or
`some lines` (its lines, without terminators) when present.  Result: the
work-item list and whether a warning was logged. -/
def load_factcheck_dirs (file : Option (List String)) : List String × Bool :=
  match file with
  | none => ([], true)
  | some lines =>
    let dirs := (lines.map (fun l => l.trim)).filter (fun s => !(s == ""))
    (dirs, dirs.isEmpty)

theorem map_trim_filter_eq_filterMap (lines : List String) :
    ((lines.map (fun l => l.trim)).filter (fun s => !(s == "")))
      = lines.filterMap (fun l => if l.trim = "" then none else some l.trim) := by
  induction lines with
  | nil => rfl
  | cons l ls ih =>
    simp only [List.map_cons, List.filter_cons, List.filterMap_cons]
    by_cases h : l.trim = ""
    · simp [h, ih]
    · simp [h, ih]

/-- Claim C10: the hand-off consumer is total — a missing hand-off file
yields the empty work list with a logged warning rather than an exception,
and a present file yields exactly its non-blank lines with surrounding
whitespace stripped, in order. -/
theorem c10_load_factcheck_dirs_total (lines : List String) :
    load_factcheck_dirs none = ([], true) ∧
    (load_factcheck_dirs (some lines)).1
      = lines.filterMap (fun l => if l.trim = "" then none else some l.trim) := by
  exact ⟨rfl, map_trim_filter_eq_filterMap lines⟩

/-! ### Hand-off list producer -/

/-- Embedding of the hand-off collection in `process_messages`
(src/email_video_runner.py): `if is_factcheck and output_dir not in
factcheck_dirs: factcheck_dirs.append(output_dir)` — an in-memory,
order-preserving, first-seen deduplication over the output directories
flagged during one run.  `ds` is the run's flagged directories in encounter
order. -/
def collect_factcheck_dirs (ds : List String) : List String :=
  ds.foldl (fun acc d => if d ∈ acc then acc else acc ++ [d]) []

/-- Embedding of the hand-off write in `process_messages`
(src/email_video_runner.py, end of function): `if factcheck_dirs:` the file
`factcheck_dirs_for_transcription.txt` is opened with mode `"w"` —
truncating the existing file — and this run's collected directories are
written one per line; when nothing was collected the file is not touched.
`prior` is the file's contents before the run (`none` = file absent). -/
def write_handoff_file (prior : Option (List String))
    (collected : List String) : Option (List String) :=
  if collected.isEmpty then prior else some collected

/-- Lines of the hand-off file (empty when the file is absent). -/
def handoff_lines (file : Option (List String)) : List String :=
  file.getD []

theorem collect_foldl_mem (ds : List String) (acc : List String) (x : String) :
    (x ∈ ds.foldl (fun acc d => if d ∈ acc then acc else acc ++ [d]) acc) ↔
      x ∈ acc ∨ x ∈ ds := by
  induction ds generalizing acc with
  | nil => simp
  | cons d ds ih =>
    simp only [List.foldl_cons, ih, List.mem_cons]
    by_cases h : d ∈ acc
    · simp only [if_pos h]
      constructor
      · rintro (hx | hx)
        · exact Or.inl hx
        · exact Or.inr (Or.inr hx)
      · rintro (hx | rfl | hx)
        · exact Or.inl hx
        · exact Or.inl h
        · exact Or.inr hx
    · simp only [if_neg h, List.mem_append, List.mem_singleton]
      constructor
      · rintro ((hx | rfl) | hx)
        · exact Or.inl hx
        · exact Or.inr (Or.inl rfl)
        · exact Or.inr (Or.inr hx)
      · rintro (hx | rfl | hx)
        · exact Or.inl (Or.inl hx)
        · exact Or.inl (Or.inr rfl)
        · exact Or.inr hx

theorem collect_foldl_nodup (ds : List String) (acc : List String)
    (h : acc.Nodup) :
    (ds.foldl (fun acc d => if d ∈ acc then acc else acc ++ [d]) acc).Nodup := by
  induction ds generalizing acc with
  | nil => exact h
  | cons d ds ih =>
    simp only [List.foldl_cons]
    by_cases hd : d ∈ acc
    · rw [if_pos hd]; exact ih acc h
    · rw [if_neg hd]
      refine ih _ ?_
      simpa [List.nodup_append] using ⟨h, hd⟩

/-- Claim C6 counterexample: the producer opens the hand-off file with mode
`"w"`, so an entry present in the file before a run (`downloads/old`) is no
longer present after a run that collected a different directory — the file
is not append-only. -/
theorem c6_handoff_not_append_only_counterexample :
    "downloads/old" ∈ handoff_lines (some ["downloads/old"]) ∧
    "downloads/old" ∉
      handoff_lines
        (write_handoff_file (some ["downloads/old"])
          (collect_factcheck_dirs ["downloads/new"])) := by
  decide

/-- Claim C6, amended: the producer rewrites rather than appends.  A run
that collects no hand-off directory leaves the file untouched; a run that
collects at least one overwrites the file so that it afterwards contains
exactly the directories collected during that run, deduplicated in
first-seen order; entries present before the run are not preserved unless
re-collected. -/
theorem c6_handoff_rewrite (prior : Option (List String)) (ds : List String) :
    (collect_factcheck_dirs ds).Nodup ∧
    (∀ x, x ∈ collect_factcheck_dirs ds ↔ x ∈ ds) ∧
    (ds = [] → write_handoff_file prior (collect_factcheck_dirs ds) = prior) ∧
    (ds ≠ [] →
      write_handoff_file prior (collect_factcheck_dirs ds)
        = some (collect_factcheck_dirs ds)) := by
  refine ⟨collect_foldl_nodup ds [] List.nodup_nil,
    fun x => by simpa using collect_foldl_mem ds [] x, ?_, ?_⟩
  · rintro rfl; rfl
  · intro hne
    cases ds with
    | nil => exact absurd rfl hne
    | cons d tl =>
      have hmem : d ∈ collect_factcheck_dirs (d :: tl) := by
        rw [collect_factcheck_dirs, collect_foldl_mem]
        exact Or.inr (List.mem_cons_self d tl)
      have hemp : (collect_factcheck_dirs (d :: tl)).isEmpty = false := by
        cases hc : collect_factcheck_dirs (d :: tl) with
        | nil => rw [hc] at hmem; cases hmem
        | cons a l => rfl
      rw [write_handoff_file, hemp]
      simp

theorem c6_handoff_rewrite_witness :
    (["downloads/a"] : List String) ≠ [] ∧
    ((collect_factcheck_dirs ["downloads/a"]).Nodup ∧
     (∀ x, x ∈ collect_factcheck_dirs ["downloads/a"] ↔
        x ∈ (["downloads/a"] : List String)) ∧
     ((["downloads/a"] : List String) = [] →
        write_handoff_file (some ["downloads/old"])
          (collect_factcheck_dirs ["downloads/a"]) = some ["downloads/old"]) ∧
     ((["downloads/a"] : List String) ≠ [] →
        write_handoff_file (some ["downloads/old"])
          (collect_factcheck_dirs ["downloads/a"])
          = some (collect_factcheck_dirs ["downloads/a"]))) :=
  ⟨by decide, c6_handoff_rewrite (some ["downloads/old"]) ["downloads/a"]⟩

/-! ### Unique filepath allocator -/

/-- Filesystem path as assembled by `get_unique_filepath`
(src/instagram_downloader.py): `os.path.join(directory, base_name +
extension)` for the first candidate and `os.path.join(directory,
f"{base_name}_{counter}{extension}")` for the suffixed ones.  The join
structure is kept explicit, so candidates with different counters are
different paths. -/
structure FsPath where
  dir : String
  base : String
  counter : Option Nat
  ext : String
deriving DecidableEq, Repr

/-- Suffixed candidate `directory/base_name_k + extension`. -/
def suffixCandidate (dir base ext : String) (k : Nat) : FsPath :=
  ⟨dir, base, some k, ext⟩

/-- Embedding of the `while True` suffix loop of `get_unique_filepath`
(src/instagram_downloader.py): probe `base_name_k`, `base_name_(k+1)`, ...
until a candidate does not exist.  `fs` is the finite list of existing
paths; the loop is run with fuel `fs.length + 1`, which always suffices
(theorem `c9_get_unique_filepath_fresh`), so the fuel-exhausted branch is
unreachable. -/
def unique_loop (fs : List FsPath) (dir base ext : String) :
    Nat → Nat → FsPath
  | 0, k => suffixCandidate dir base ext k
  | fuel+1, k =>
    if suffixCandidate dir base ext k ∈ fs then
      unique_loop fs dir base ext fuel (k+1)
    else suffixCandidate dir base ext k

/-- Embedding of `get_unique_filepath` (src/instagram_downloader.py):
returns `directory/base_name + extension` when that path does not exist,
otherwise the first `directory/base_name_k + extension` (k = 1, 2, ...)
that does not exist. -/
def get_unique_filepath (fs : List FsPath) (dir base ext : String) : FsPath :=
  if (⟨dir, base, none, ext⟩ : FsPath) ∈ fs then
    unique_loop fs dir base ext (fs.length + 1) 1
  else ⟨dir, base, none, ext⟩

theorem unique_loop_not_mem (fs : List FsPath) (dir base ext : String) :
    ∀ fuel k, (∃ j, k ≤ j ∧ j < k + fuel ∧ suffixCandidate dir base ext j ∉ fs) →
      unique_loop fs dir base ext fuel k ∉ fs := by
  intro fuel
  induction fuel with
  | zero =>
    rintro k ⟨j, h1, h2, _⟩
    omega
  | succ n ih =>
    rintro k ⟨j, hkj, hlt, hfree⟩
    rw [unique_loop]
    by_cases hmem : suffixCandidate dir base ext k ∈ fs
    · rw [if_pos hmem]
      refine ih (k+1) ⟨j, ?_, by omega, hfree⟩
      rcases Nat.eq_or_lt_of_le hkj with rfl | hlt'
      · exact absurd hmem hfree
      · omega
    · rw [if_neg hmem]
      exact hmem

theorem exists_free_candidate (fs : List FsPath) (dir base ext : String) :
    ∃ j, 1 ≤ j ∧ j < 1 + (fs.length + 1) ∧
      suffixCandidate dir base ext j ∉ fs := by
  by_contra hcon
  push_neg at hcon
  have hsub :
      ((List.range (fs.length + 1)).map
        (fun i => suffixCandidate dir base ext (i + 1))) ⊆ fs := by
    intro x hx
    simp only [List.mem_map, List.mem_range] at hx
    obtain ⟨i, hi, rfl⟩ := hx
    exact hcon (i + 1) (by omega) (by omega)
  have hinj : Function.Injective (fun i => suffixCandidate dir base ext (i + 1)) := by
    intro i j hij
    simp only [suffixCandidate, FsPath.mk.injEq, Option.some.injEq] at hij
    omega
  have hnd :
      ((List.range (fs.length + 1)).map
        (fun i => suffixCandidate dir base ext (i + 1))).Nodup :=
    (List.nodup_range _).map hinj
  have hle := (List.subperm_of_subset hnd hsub).length_le
  simp only [List.length_map, List.length_range] at hle
  omega

/-- Claim C9: `get_unique_filepath` always returns a path that does not
exist at the time of the call — when the plain `base_name` path is free it
is returned as-is, otherwise an incrementally suffixed `base_name_k` path
that is free is returned — so saving a newly downloaded video never
overwrites an existing file. -/
theorem c9_get_unique_filepath_fresh (fs : List FsPath) (dir base ext : String) :
    get_unique_filepath fs dir base ext ∉ fs ∧
    ((⟨dir, base, none, ext⟩ : FsPath) ∉ fs →
      get_unique_filepath fs dir base ext = ⟨dir, base, none, ext⟩) := by
  constructor
  · rw [get_unique_filepath]
    by_cases hmem : (⟨dir, base, none, ext⟩ : FsPath) ∈ fs
    · rw [if_pos hmem]
      exact unique_loop_not_mem fs dir base ext (fs.length + 1) 1
        (exists_free_candidate fs dir base ext)
    · rw [if_neg hmem]
      exact hmem
  · intro hfree
    rw [get_unique_filepath, if_neg hfree]

theorem c9_get_unique_filepath_fresh_witness :
    get_unique_filepath
        [⟨"downloads", "clip", none, ".mp4"⟩,
         ⟨"downloads", "clip", some 1, ".mp4"⟩] "downloads" "clip" ".mp4"
      ∉ [(⟨"downloads", "clip", none, ".mp4"⟩ : FsPath),
         ⟨"downloads", "clip", some 1, ".mp4"⟩] ∧
    ((⟨"other", "clip", none, ".mp4"⟩ : FsPath) ∉
        [(⟨"downloads", "clip", none, ".mp4"⟩ : FsPath),
         ⟨"downloads", "clip", some 1, ".mp4"⟩] ∧
      get_unique_filepath
          [⟨"downloads", "clip", none, ".mp4"⟩,
           ⟨"downloads", "clip", some 1, ".mp4"⟩] "other" "clip" ".mp4"
        = ⟨"other", "clip", none, ".mp4"⟩) :=
  ⟨(c9_get_unique_filepath_fresh
      [⟨"downloads", "clip", none, ".mp4"⟩,
       ⟨"downloads", "clip", some 1, ".mp4"⟩] "downloads" "clip" ".mp4").1,
   by decide,
   (c9_get_unique_filepath_fresh
      [⟨"downloads", "clip", none, ".mp4"⟩,
       ⟨"downloads", "clip", some 1, ".mp4"⟩] "other" "clip" ".mp4").2
     (by decide)⟩

/-! ### Download retry loop and ledger gate -/

/-- Observable events of one download call
(src/email_video_runner.py `download_with_ytdlp`,
src/yt_tiktok_downloader.py `download_video_yt_tiktok`). -/
inductive DlEv where
  /-- `ydl.extract_info(url, download=True)` attempted (attempt number). -/
  | invoke (attempt : Nat)
  /-- the attempt's exception logged immediately at the point of failure. -/
  | logFail (e : String)
  /-- `time.sleep(random.uniform(1, 3))` between attempts. -/
  | sleep
  /-- `extract_info` returned: the artifact is on disk (a real fetch). -/
  | fetched
  /-- `record_successful_download` executed. -/
  | recordDb
  /-- the final "All {retries} attempts failed ... Giving up." log. -/
  | giveUp
deriving DecidableEq, Repr

/-- Outcome of the retry loop: the fetched title on success, the event
trace, and the exception variable live at loop exit (`exc` is rebound on
every failed attempt, so only the most recent error survives; no aggregate
of errors is kept anywhere). -/
structure RetryOut where
  result : Option String
  evs : List DlEv
  lastErr : Option String
deriving DecidableEq, Repr

/-- Embedding of the `for attempt in range(1, retries + 1)` retry loop
shared by `download_with_ytdlp` (src/email_video_runner.py) and
`download_video_yt_tiktok` (src/yt_tiktok_downloader.py).  `op attempt` is
the fallible yt-dlp call: `.ok title` means `extract_info` returned (with
the title already resolved against the fallback and sanitised), `.error e`
the exception it raised.  On failure the error is logged immediately; if
more attempts remain (`attempt < retries`) the loop sleeps a randomized
1-3 s backoff before the next attempt — never after the final one.  `fuel`
is the number of loop iterations left (`retries` at entry). -/
def retry_loop (op : Nat → Except String String) (retries : Nat) :
    Nat → Nat → RetryOut
  | 0, _ => ⟨none, [.giveUp], none⟩
  | fuel+1, attempt =>
    match op attempt with
    | .ok title => ⟨some title, [.invoke attempt, .fetched], none⟩
    | .error e =>
      let rest := retry_loop op retries fuel (attempt + 1)
      ⟨rest.result,
       .invoke attempt :: .logFail e ::
         (if attempt < retries then DlEv.sleep :: rest.evs else rest.evs),
       some (rest.lastErr.getD e)⟩

/-- Embedding of `download_with_ytdlp` (src/email_video_runner.py): the
ledger is consulted first and an already-recorded URL returns True with no
yt-dlp call at all; otherwise the retry loop runs and a successful fetch is
recorded in the ledger before returning True; on exhaustion the function
returns False.  Returns (success, ledger after the call, events). -/
def download_with_ytdlp (op : Nat → Except String String)
    (db : List LedgerRow) (url : String) (retries : Nat := 3) :
    Bool × List LedgerRow × List DlEv :=
  if is_url_downloaded db url then (true, db, [])
  else
    let out := retry_loop op retries retries 1
    match out.result with
    | some title =>
      (true, record_successful_download db url title, out.evs ++ [.recordDb])
    | none => (false, db, out.evs)

/-- Embedding of `download_video_yt_tiktok` (src/yt_tiktok_downloader.py):
identical ledger gate, retry loop and record, with one extra up-front check
— if the `yt_dlp` import fails the function returns False before any
attempt. -/
def download_video_yt_tiktok (ytdlpAvailable : Bool)
    (op : Nat → Except String String) (db : List LedgerRow) (url : String)
    (retries : Nat := 3) : Bool × List LedgerRow × List DlEv :=
  if is_url_downloaded db url then (true, db, [])
  else if !ytdlpAvailable then (false, db, [])
  else download_with_ytdlp op db url retries

/-- Number of yt-dlp invocations in a trace. -/
def invokeCount (evs : List DlEv) : Nat :=
  (evs.filter (fun e => match e with | .invoke _ => true | _ => false)).length

/-- Number of backoff sleeps in a trace. -/
def sleepCount (evs : List DlEv) : Nat :=
  (evs.filter (fun e => match e with | .sleep => true | _ => false)).length

/-- Number of completed (real) fetches in a trace. -/
def fetchCount (evs : List DlEv) : Nat :=
  (evs.filter (fun e => match e with | .fetched => true | _ => false)).length

theorem retry_loop_all_fail (op : Nat → Except String String)
    (errs : Nat → String) (retries : Nat)
    (hop : ∀ n, op n = .error (errs n)) :
    ∀ fuel attempt, attempt + fuel = retries + 1 →
      (retry_loop op retries fuel attempt).result = none ∧
      invokeCount (retry_loop op retries fuel attempt).evs = fuel ∧
      sleepCount (retry_loop op retries fuel attempt).evs = fuel - 1 ∧
      (retry_loop op retries fuel attempt).lastErr
        = if fuel = 0 then none else some (errs retries) := by
  intro fuel
  induction fuel with
  | zero =>
    intro attempt _
    refine ⟨rfl, rfl, rfl, rfl⟩
  | succ n ih =>
    intro attempt hsum
    obtain ⟨hres, hinv, hslp, hlast⟩ := ih (attempt + 1) (by omega)
    by_cases hlt : attempt < retries
    · have hn : n ≠ 0 := by omega
      rw [retry_loop]
      simp only [hop attempt, if_pos hlt]
      refine ⟨hres, ?_, ?_, ?_⟩
      · simp only [invokeCount, List.filter_cons] at hinv ⊢
        simp
        omega
      · simp only [sleepCount, List.filter_cons] at hslp ⊢
        simp
        omega
      · rw [hlast, if_neg hn]
        simp
    · have hattempt : attempt = retries := by omega
      have hn : n = 0 := by omega
      subst hn
      rw [retry_loop]
      simp only [hop attempt, if_neg hlt]
      refine ⟨hres, ?_, ?_, ?_⟩
      · simp [invokeCount, retry_loop]
      · simp [sleepCount, retry_loop]
      · simp [retry_loop, hattempt]

/-- Claim C3: with an operation that fails on every attempt and a URL not
yet in the ledger, the retry wrapper invokes the operation exactly
`retries` times (the caller-facing default being 3 attempts), sleeps
between attempts but not after the final one (`retries - 1` sleeps), then
reports failure; the failure state carries only the most recent error (the
final attempt's), never an aggregate of all errors. -/
theorem c3_retry_bound (op : Nat → Except String String)
    (errs : Nat → String) (db : List LedgerRow) (url : String)
    (retries : Nat) (hop : ∀ n, op n = .error (errs n))
    (hnew : is_url_downloaded db url = false) (hr : 1 ≤ retries) :
    invokeCount (download_with_ytdlp op db url retries).2.2 = retries ∧
    sleepCount (download_with_ytdlp op db url retries).2.2 = retries - 1 ∧
    (download_with_ytdlp op db url retries).1 = false ∧
    (download_with_ytdlp op db url retries).2.1 = db ∧
    (retry_loop op retries retries 1).lastErr = some (errs retries) ∧
    download_with_ytdlp op db url = download_with_ytdlp op db url 3 := by
  obtain ⟨hres, hinv, hslp, hlast⟩ :=
    retry_loop_all_fail op errs retries hop retries 1 (by omega)
  have hdl : download_with_ytdlp op db url retries
      = (false, db, (retry_loop op retries retries 1).evs) := by
    rw [download_with_ytdlp, if_neg (by simp [hnew])]
    simp only [hres]
  rw [hdl]
  refine ⟨hinv, hslp, rfl, rfl, ?_, rfl⟩
  rw [hlast, if_neg (by omega)]

theorem c3_retry_bound_witness :
    (∀ n, (fun (_ : Nat) => (Except.error "network down" : Except String String)) n
        = .error ((fun (_ : Nat) => "network down") n)) ∧
    is_url_downloaded [] "https://example.com/v" = false ∧
    1 ≤ 3 ∧
    (invokeCount
        (download_with_ytdlp (fun (_ : Nat) => .error "network down") []
          "https://example.com/v" 3).2.2 = 3 ∧
     sleepCount
        (download_with_ytdlp (fun (_ : Nat) => .error "network down") []
          "https://example.com/v" 3).2.2 = 3 - 1 ∧
     (download_with_ytdlp (fun (_ : Nat) => .error "network down") []
        "https://example.com/v" 3).1 = false ∧
     (download_with_ytdlp (fun (_ : Nat) => .error "network down") []
        "https://example.com/v" 3).2.1 = [] ∧
     (retry_loop (fun (_ : Nat) => .error "network down") 3 3 1).lastErr
        = some ((fun (_ : Nat) => "network down") 3) ∧
     download_with_ytdlp (fun (_ : Nat) => .error "network down") []
        "https://example.com/v"
       = download_with_ytdlp (fun (_ : Nat) => .error "network down") []
          "https://example.com/v" 3) :=
  ⟨fun _ => rfl, rfl, by omega,
   c3_retry_bound (fun (_ : Nat) => .error "network down") (fun (_ : Nat) => "network down")
     [] "https://example.com/v" 3 (fun _ => rfl) rfl (by omega)⟩

theorem retry_loop_fetchCount (op : Nat → Except String String) (retries : Nat) :
    ∀ fuel attempt,
      fetchCount (retry_loop op retries fuel attempt).evs ≤ 1 ∧
      ((retry_loop op retries fuel attempt).result = none →
        fetchCount (retry_loop op retries fuel attempt).evs = 0) := by
  intro fuel
  induction fuel with
  | zero =>
    intro attempt
    exact ⟨by simp [retry_loop, fetchCount], fun _ => by simp [retry_loop, fetchCount]⟩
  | succ n ih =>
    intro attempt
    obtain ⟨ihle, ihnone⟩ := ih (attempt + 1)
    rw [retry_loop]
    cases hop : op attempt with
    | ok title =>
      refine ⟨by simp [fetchCount], ?_⟩
      intro h
      simp at h
    | error e =>
      by_cases hlt : attempt < retries
      · simp only [if_pos hlt]
        refine ⟨?_, fun h => ?_⟩
        · simp only [fetchCount, List.filter_cons] at ihle ⊢
          simpa using ihle
        · simp only [fetchCount, List.filter_cons] at ihnone ⊢
          simpa using ihnone h
      · simp only [if_neg hlt]
        refine ⟨?_, fun h => ?_⟩
        · simp only [fetchCount, List.filter_cons] at ihle ⊢
          simpa using ihle
        · simp only [fetchCount, List.filter_cons] at ihnone ⊢
          simpa using ihnone h

theorem download_gated (op : Nat → Except String String) (db : List LedgerRow)
    (url : String) (r : Nat) (h : is_url_downloaded db url = true) :
    download_with_ytdlp op db url r = (true, db, []) := by
  rw [download_with_ytdlp, if_pos h]

theorem download_fetch_le_one (op : Nat → Except String String)
    (db : List LedgerRow) (url : String) (r : Nat) :
    fetchCount (download_with_ytdlp op db url r).2.2 ≤ 1 := by
  rw [download_with_ytdlp]
  by_cases hg : is_url_downloaded db url = true
  · simp [hg, fetchCount]
  · simp only [if_neg hg]
    cases hres : (retry_loop op r r 1).result with
    | some title =>
      simp only [hres]
      have hle := (retry_loop_fetchCount op r r 1).1
      simp only [fetchCount, List.filter_append] at hle ⊢
      simpa using hle
    | none =>
      simp only [hres]
      exact (retry_loop_fetchCount op r r 1).1

theorem download_fetch_recorded (op : Nat → Except String String)
    (db : List LedgerRow) (url : String) (r : Nat)
    (h : 1 ≤ fetchCount (download_with_ytdlp op db url r).2.2) :
    is_url_downloaded (download_with_ytdlp op db url r).2.1 url = true := by
  rw [download_with_ytdlp] at h ⊢
  by_cases hg : is_url_downloaded db url = true
  · rw [if_pos hg] at h
    simp [fetchCount] at h
  · rw [if_neg hg] at h ⊢
    cases hres : (retry_loop op r r 1).result with
    | some title =>
      simp only [hres]
      exact is_url_downloaded_record_self db url title
    | none =>
      simp only [hres] at h
      have h0 := (retry_loop_fetchCount op r r 1).2 hres
      omega

/-- Claim C5: the ledger existence check is consulted before any fetch —
for a URL already present in the ledger both download functions return
success immediately with an empty event trace (no network fetch, ledger
unchanged) — and two consecutive calls of the fetch gate with the same URL
complete at most one real fetch between them, whatever the fetch oracles
do. -/
theorem c5_fetch_gate_idempotent (op1 op2 : Nat → Except String String)
    (avail : Bool) (db : List LedgerRow) (url : String) (r1 r2 : Nat) :
    (is_url_downloaded db url = true →
      download_with_ytdlp op1 db url r1 = (true, db, []) ∧
      download_video_yt_tiktok avail op1 db url r1 = (true, db, [])) ∧
    fetchCount (download_with_ytdlp op1 db url r1).2.2 +
      fetchCount
        (download_with_ytdlp op2 (download_with_ytdlp op1 db url r1).2.1
          url r2).2.2 ≤ 1 := by
  constructor
  · intro h
    refine ⟨download_gated op1 db url r1 h, ?_⟩
    rw [download_video_yt_tiktok, if_pos h]
  · by_cases h1 : 1 ≤ fetchCount (download_with_ytdlp op1 db url r1).2.2
    · have hrec := download_fetch_recorded op1 db url r1 h1
      rw [download_gated op2 _ url r2 hrec]
      have hle := download_fetch_le_one op1 db url r1
      simp only [fetchCount, List.filter_nil, List.length_nil] at hle ⊢
      omega
    · have hle := download_fetch_le_one op2
        (download_with_ytdlp op1 db url r1).2.1 url r2
      omega

theorem c5_fetch_gate_idempotent_witness :
    is_url_downloaded [⟨"https://example.com/v", "t"⟩] "https://example.com/v"
      = true ∧
    ((download_with_ytdlp (fun (_ : Nat) => .ok "t2")
        [⟨"https://example.com/v", "t"⟩] "https://example.com/v" 3
        = (true, [⟨"https://example.com/v", "t"⟩], []) ∧
      download_video_yt_tiktok true (fun (_ : Nat) => .ok "t2")
        [⟨"https://example.com/v", "t"⟩] "https://example.com/v" 3
        = (true, [⟨"https://example.com/v", "t"⟩], [])) ∧
     fetchCount
        (download_with_ytdlp (fun (_ : Nat) => .ok "t2")
          [⟨"https://example.com/v", "t"⟩] "https://example.com/v" 3).2.2 +
       fetchCount
        (download_with_ytdlp (fun (_ : Nat) => .ok "t3")
          (download_with_ytdlp (fun (_ : Nat) => .ok "t2")
            [⟨"https://example.com/v", "t"⟩] "https://example.com/v" 3).2.1
          "https://example.com/v" 3).2.2 ≤ 1) :=
  ⟨by decide,
   ⟨(c5_fetch_gate_idempotent (fun (_ : Nat) => .ok "t2")
       (fun (_ : Nat) => .ok "t3") true [⟨"https://example.com/v", "t"⟩]
       "https://example.com/v" 3 3).1 (by decide),
    (c5_fetch_gate_idempotent (fun (_ : Nat) => .ok "t2")
       (fun (_ : Nat) => .ok "t3") true [⟨"https://example.com/v", "t"⟩]
       "https://example.com/v" 3 3).2⟩⟩

/-! ### Per-item stage pipeline -/

/-- Sidecar presence for one video item: the `.wav`, `.txt` and `.json`
files sharing the primary file's stem (src/process_and_package_videos.py,
`process_single_video`). -/
structure Sidecars where
  audio : Bool
  transcript : Bool
  json : Bool
deriving DecidableEq, Repr

/-- Observable effects of one `process_single_video` call. -/
inductive PEv where
  /-- `is_file_stable`: the two stat samples and the interposed sleep. -/
  | statCheck
  /-- the stat-failure warning inside `is_file_stable`. -/
  | logWarn
  /-- `subprocess.run(["ffmpeg", ...])` — the audio-extraction call. -/
  | ffmpegRun
  /-- ffmpeg wrote the `.wav` sidecar. -/
  | writeAudio
  /-- `whisper.load_model` + `model.transcribe` — the transcription call. -/
  | whisperRun
  /-- `open(transcript_path, "w")` wrote the `.txt` sidecar. -/
  | writeTranscript
  /-- `json.dump(...)` wrote the `.json` package sidecar. -/
  | writeJson
  /-- a skip was logged (`.part`, unstable, or already fully processed). -/
  | logSkip
  /-- the catch-all `except Exception` of `process_single_video` logged. -/
  | logError
deriving DecidableEq, Repr

/-- Environment of one `process_single_video` call: whether the filename
ends in `.part`, the two stat samples taken by `is_file_stable`, and the
outcomes of the external ffmpeg / Whisper / package-write calls
(`.error e` models the call raising exception `e`). -/
structure ItemEnv where
  isPart : Bool
  stat0 : Option (Nat × Nat)
  stat1 : Option (Nat × Nat)
  ffmpegOk : Bool
  whisperRes : Except String Unit
  pkgRes : Except String Unit

/-- Embedding of `extract_audio` (src/process_and_package_videos.py):
returns True at once when the `.wav` sidecar exists; otherwise runs ffmpeg,
which on success writes the sidecar; a `CalledProcessError` is caught
inside the function and surfaces as False (no partial sidecar in the
model).  Result: (sidecars, events, returned bool). -/
def extract_audio (ffmpegOk : Bool) (s : Sidecars) :
    Sidecars × List PEv × Bool :=
  if s.audio then (s, [], true)
  else if ffmpegOk then ({ s with audio := true }, [.ffmpegRun, .writeAudio], true)
  else (s, [.ffmpegRun], false)

/-- Embedding of `transcribe_audio` (src/process_and_package_videos.py):
returns True at once when the `.txt` sidecar exists; otherwise invokes
Whisper — a Whisper failure propagates as an exception (`.error`), success
writes the transcript and returns True (the function has no False
return). -/
def transcribe_audio (whisperRes : Except String Unit) (s : Sidecars) :
    Sidecars × List PEv × Except String Bool :=
  if s.transcript then (s, [], .ok true)
  else
    match whisperRes with
    | .error e => (s, [.whisperRun], .error e)
    | .ok _ => ({ s with transcript := true }, [.whisperRun, .writeTranscript], .ok true)

/-- Embedding of `package_json` (src/process_and_package_videos.py): reads
the transcript and writes the `.json` package sidecar; an IO failure
propagates as an exception (`.error`). -/
def package_json (pkgRes : Except String Unit) (s : Sidecars) :
    Sidecars × List PEv × Except String Unit :=
  match pkgRes with
  | .error e => (s, [], .error e)
  | .ok _ => ({ s with json := true }, [.writeJson], .ok ())

/-- Events emitted by the `is_file_stable` call inside the pipeline: the
stat/sleep probe, plus the warning when a stat raised. -/
def stabilityEvs (env : ItemEnv) : List PEv :=
  if (is_file_stable env.stat0 env.stat1).2 then [.statCheck, .logWarn]
  else [.statCheck]

/-- Result of the `try:` body of `process_single_video`: final sidecar
state, emitted events, and `some e` when an exception escaped the body (to
be caught by the enclosing `except Exception`). -/
structure TryOut where
  s : Sidecars
  evs : List PEv
  exn : Option String
deriving DecidableEq, Repr

/-- Embedding of the `try:` body of `process_single_video`
(src/process_and_package_videos.py): skip `.part` files; run
`is_file_stable` (which stats and sleeps) and skip unstable files; skip
items whose `.json` package sidecar exists (terminal); otherwise run
extract → transcribe → package, each `if not ...: return` gate stopping
the chain, and any stage exception escaping to the caller. -/
def process_single_video_try (env : ItemEnv) (s : Sidecars) : TryOut :=
  if env.isPart then ⟨s, [.logSkip], none⟩
  else if (is_file_stable env.stat0 env.stat1).1 = false then
    ⟨s, stabilityEvs env ++ [.logSkip], none⟩
  else if s.json then ⟨s, stabilityEvs env ++ [.logSkip], none⟩
  else if (extract_audio env.ffmpegOk s).2.2 = false then
    ⟨(extract_audio env.ffmpegOk s).1,
     stabilityEvs env ++ (extract_audio env.ffmpegOk s).2.1, none⟩
  else
    match (transcribe_audio env.whisperRes (extract_audio env.ffmpegOk s).1).2.2 with
    | .error e =>
      ⟨(transcribe_audio env.whisperRes (extract_audio env.ffmpegOk s).1).1,
       stabilityEvs env ++ (extract_audio env.ffmpegOk s).2.1
         ++ (transcribe_audio env.whisperRes (extract_audio env.ffmpegOk s).1).2.1,
       some e⟩
    | .ok b =>
      if b = false then
        ⟨(transcribe_audio env.whisperRes (extract_audio env.ffmpegOk s).1).1,
         stabilityEvs env ++ (extract_audio env.ffmpegOk s).2.1
           ++ (transcribe_audio env.whisperRes (extract_audio env.ffmpegOk s).1).2.1,
         none⟩
      else
        match (package_json env.pkgRes
            (transcribe_audio env.whisperRes (extract_audio env.ffmpegOk s).1).1).2.2 with
        | .error e =>
          ⟨(package_json env.pkgRes
              (transcribe_audio env.whisperRes (extract_audio env.ffmpegOk s).1).1).1,
           stabilityEvs env ++ (extract_audio env.ffmpegOk s).2.1
             ++ (transcribe_audio env.whisperRes (extract_audio env.ffmpegOk s).1).2.1
             ++ (package_json env.pkgRes
                  (transcribe_audio env.whisperRes (extract_audio env.ffmpegOk s).1).1).2.1,
           some e⟩
        | .ok _ =>
          ⟨(package_json env.pkgRes
              (transcribe_audio env.whisperRes (extract_audio env.ffmpegOk s).1).1).1,
           stabilityEvs env ++ (extract_audio env.ffmpegOk s).2.1
             ++ (transcribe_audio env.whisperRes (extract_audio env.ffmpegOk s).1).2.1
             ++ (package_json env.pkgRes
                  (transcribe_audio env.whisperRes (extract_audio env.ffmpegOk s).1).1).2.1,
           none⟩

/-- Embedding of `process_single_video` (src/process_and_package_videos.py):
the whole body runs inside `try: ... except Exception as e: logging.error`,
so any stage exception is logged at the point of occurrence and the call
returns normally — the function never propagates an exception. -/
def process_single_video (env : ItemEnv) (s : Sidecars) :
    Sidecars × List PEv :=
  match (process_single_video_try env s).exn with
  | none => ((process_single_video_try env s).s, (process_single_video_try env s).evs)
  | some _ =>
    ((process_single_video_try env s).s,
     (process_single_video_try env s).evs ++ [.logError])

/-- Embedding of `process_videos` (src/process_and_package_videos.py):
every discovered video is submitted to the `ThreadPoolExecutor` and
`as_completed`/`future.result()` is awaited for all futures; because
`process_single_video` is total (it catches every exception itself),
`future.result()` never re-raises and the pool completes every submitted
item — items are independent, so the bounded pool is modelled as the
per-item map. -/
def process_videos (items : List (ItemEnv × Sidecars)) :
    List (Sidecars × List PEv) :=
  items.map (fun p => process_single_video p.1 p.2)

/-- Number of external-call/write events (audio extraction, audio write,
transcription, transcript write, package write) in a pipeline trace. -/
def pipelineWriteCount (evs : List PEv) : Nat :=
  (evs.filter (fun e => match e with
    | .ffmpegRun => true
    | .writeAudio => true
    | .whisperRun => true
    | .writeTranscript => true
    | .writeJson => true
    | _ => false)).length

theorem psv_try_json_skip (env : ItemEnv) (s : Sidecars) (h : s.json = true) :
    (process_single_video_try env s).s = s ∧
    (process_single_video_try env s).exn = none ∧
    pipelineWriteCount (process_single_video_try env s).evs = 0 := by
  unfold process_single_video_try
  by_cases hp : env.isPart
  · simp [hp, pipelineWriteCount]
  · simp only [hp, if_false, Bool.false_eq_true]
    by_cases hst : (is_file_stable env.stat0 env.stat1).1 = false
    · rw [if_pos hst]
      refine ⟨rfl, rfl, ?_⟩
      unfold stabilityEvs pipelineWriteCount
      split <;> rfl
    · rw [if_neg hst, if_pos h]
      refine ⟨rfl, rfl, ?_⟩
      unfold stabilityEvs pipelineWriteCount
      split <;> rfl

/-- Claim C2: for an item whose `.json` package sidecar already exists, a
re-run of `process_single_video` performs no additional writes and no
external calls — no audio extraction, no transcription, no packaging: the
sidecar state is returned unchanged and the trace contains no
call-or-write event. -/
theorem c2_package_sidecar_terminal (env : ItemEnv) (s : Sidecars)
    (h : s.json = true) :
    (process_single_video env s).1 = s ∧
    pipelineWriteCount (process_single_video env s).2 = 0 := by
  obtain ⟨hs, hexn, hw⟩ := psv_try_json_skip env s h
  rw [process_single_video]
  simp only [hexn]
  exact ⟨hs, hw⟩

theorem c2_package_sidecar_terminal_witness :
    (⟨false, false, true⟩ : Sidecars).json = true ∧
    ((process_single_video
        ⟨false, some (9, 4), some (9, 4), true, .ok (), .ok ()⟩
        ⟨false, false, true⟩).1 = ⟨false, false, true⟩ ∧
     pipelineWriteCount
       (process_single_video
         ⟨false, some (9, 4), some (9, 4), true, .ok (), .ok ()⟩
         ⟨false, false, true⟩).2 = 0) :=
  ⟨rfl,
   c2_package_sidecar_terminal
     ⟨false, some (9, 4), some (9, 4), true, .ok (), .ok ()⟩
     ⟨false, false, true⟩ rfl⟩

theorem whisperRun_not_mem_stabilityEvs (env : ItemEnv) :
    PEv.whisperRun ∉ stabilityEvs env := by
  unfold stabilityEvs; split <;> decide

theorem writeTranscript_not_mem_stabilityEvs (env : ItemEnv) :
    PEv.writeTranscript ∉ stabilityEvs env := by
  unfold stabilityEvs; split <;> decide

theorem writeJson_not_mem_stabilityEvs (env : ItemEnv) :
    PEv.writeJson ∉ stabilityEvs env := by
  unfold stabilityEvs; split <;> decide

/-- Claim C7: stages run strictly in sequence, gated by the previous
stage's artifact — Whisper is only ever invoked after audio extraction
succeeded (so the `.wav` sidecar exists), the package is only ever written
after transcription succeeded (so the final state has the `.txt` sidecar
and the Whisper call, if needed, returned), a failed extraction prevents
every later stage, and a Whisper exception prevents packaging. -/
theorem c7_stage_sequencing (env : ItemEnv) (s : Sidecars) :
    (PEv.whisperRun ∈ (process_single_video env s).2 →
      (extract_audio env.ffmpegOk s).2.2 = true ∧
      (extract_audio env.ffmpegOk s).1.audio = true) ∧
    (PEv.writeJson ∈ (process_single_video env s).2 →
      (process_single_video env s).1.transcript = true ∧
      (s.transcript = true ∨ env.whisperRes = Except.ok ())) ∧
    ((extract_audio env.ffmpegOk s).2.2 = false →
      PEv.whisperRun ∉ (process_single_video env s).2 ∧
      PEv.writeTranscript ∉ (process_single_video env s).2 ∧
      PEv.writeJson ∉ (process_single_video env s).2) ∧
    (∀ e, env.whisperRes = Except.error e → s.transcript = false →
      PEv.writeJson ∉ (process_single_video env s).2) := by
  obtain ⟨pt, s0, s1, ff, wr, pk⟩ := env
  obtain ⟨a1, t1, j1⟩ := s
  cases pt <;> cases a1 <;> cases t1 <;> cases j1 <;> cases ff <;>
    rcases wr with we | ⟨⟩ <;> rcases pk with pe | ⟨⟩ <;>
      by_cases hst : (is_file_stable s0 s1).1 = false <;>
        simp_all [process_single_video, process_single_video_try,
          extract_audio, transcribe_audio, package_json,
          whisperRun_not_mem_stabilityEvs, writeTranscript_not_mem_stabilityEvs,
          writeJson_not_mem_stabilityEvs]

theorem c7_stage_sequencing_witness :
    ((PEv.whisperRun ∈
        (process_single_video ⟨false, some (3, 2), some (3, 2), false, .ok (), .ok ()⟩
          ⟨false, false, false⟩).2 →
      (extract_audio false ⟨false, false, false⟩).2.2 = true ∧
      (extract_audio false ⟨false, false, false⟩).1.audio = true) ∧
     (PEv.writeJson ∈
        (process_single_video ⟨false, some (3, 2), some (3, 2), false, .ok (), .ok ()⟩
          ⟨false, false, false⟩).2 →
      (process_single_video ⟨false, some (3, 2), some (3, 2), false, .ok (), .ok ()⟩
          ⟨false, false, false⟩).1.transcript = true ∧
      ((⟨false, false, false⟩ : Sidecars).transcript = true ∨
        (Except.ok () : Except String Unit) = Except.ok ())) ∧
     ((extract_audio false ⟨false, false, false⟩).2.2 = false →
      PEv.whisperRun ∉
        (process_single_video ⟨false, some (3, 2), some (3, 2), false, .ok (), .ok ()⟩
          ⟨false, false, false⟩).2 ∧
      PEv.writeTranscript ∉
        (process_single_video ⟨false, some (3, 2), some (3, 2), false, .ok (), .ok ()⟩
          ⟨false, false, false⟩).2 ∧
      PEv.writeJson ∉
        (process_single_video ⟨false, some (3, 2), some (3, 2), false, .ok (), .ok ()⟩
          ⟨false, false, false⟩).2) ∧
     (∀ e, (Except.ok () : Except String Unit) = Except.error e →
        (⟨false, false, false⟩ : Sidecars).transcript = false →
        PEv.writeJson ∉
          (process_single_video ⟨false, some (3, 2), some (3, 2), false, .ok (), .ok ()⟩
            ⟨false, false, false⟩).2)) :=
  c7_stage_sequencing ⟨false, some (3, 2), some (3, 2), false, .ok (), .ok ()⟩
    ⟨false, false, false⟩

/-- Claim C8: `process_single_video` never propagates an exception — a
`try`-body exception is caught, logged, and the call returns normally with
the item's state and trace — and the scan maps every submitted item to an
outcome: `process_videos` returns one result per item, with item `i`'s
outcome depending only on item `i`'s own environment and state, so one
item's failure cannot cancel or affect any sibling. -/
theorem c8_pool_isolation (env : ItemEnv) (s : Sidecars) (e : String)
    (items : List (ItemEnv × Sidecars)) (i : Nat) :
    ((process_single_video_try env s).exn = some e →
      process_single_video env s
        = ((process_single_video_try env s).s,
           (process_single_video_try env s).evs ++ [PEv.logError])) ∧
    (process_videos items).length = items.length ∧
    (process_videos items)[i]?
      = (items[i]?).map (fun p => process_single_video p.1 p.2) := by
  refine ⟨fun h => ?_, by simp [process_videos], ?_⟩
  · rw [process_single_video]
    simp only [h]
  · simp [process_videos]

theorem c8_pool_isolation_witness :
    (process_single_video_try
        ⟨false, some (5, 7), some (5, 7), true, .error "whisper boom", .ok ()⟩
        ⟨false, false, false⟩).exn = some "whisper boom" ∧
    (process_single_video
        ⟨false, some (5, 7), some (5, 7), true, .error "whisper boom", .ok ()⟩
        ⟨false, false, false⟩
      = ((process_single_video_try
            ⟨false, some (5, 7), some (5, 7), true, .error "whisper boom", .ok ()⟩
            ⟨false, false, false⟩).s,
         (process_single_video_try
            ⟨false, some (5, 7), some (5, 7), true, .error "whisper boom", .ok ()⟩
            ⟨false, false, false⟩).evs ++ [PEv.logError]) ∧
     (process_videos
        [(⟨false, some (5, 7), some (5, 7), true, .error "whisper boom", .ok ()⟩,
          ⟨false, false, false⟩)]).length = 1 ∧
     (process_videos
        [(⟨false, some (5, 7), some (5, 7), true, .error "whisper boom", .ok ()⟩,
          ⟨false, false, false⟩)])[0]?
       = ([(⟨false, some (5, 7), some (5, 7), true, .error "whisper boom", .ok ()⟩,
            (⟨false, false, false⟩ : Sidecars))][0]?).map
           (fun p => process_single_video p.1 p.2)) := by
  have hexn : (process_single_video_try
      ⟨false, some (5, 7), some (5, 7), true, .error "whisper boom", .ok ()⟩
      ⟨false, false, false⟩).exn = some "whisper boom" := by decide
  refine ⟨hexn, ?_⟩
  obtain ⟨h1, h2, h3⟩ := c8_pool_isolation
    ⟨false, some (5, 7), some (5, 7), true, .error "whisper boom", .ok ()⟩
    ⟨false, false, false⟩ "whisper boom"
    [(⟨false, some (5, 7), some (5, 7), true, .error "whisper boom", .ok ()⟩,
      ⟨false, false, false⟩)] 0
  exact ⟨h1 hexn, h2, h3⟩
